import Mathlib

/-!
Verification of the tracing facade in pkg/tracing/tracing.go.

The Go code is embedded shallowly:
- machine strings stay Lean strings; the Go float64 sample rate is modelled
  as a rational number, since the code only compares it against the exact
  bounds 0 and 1;
- fallible Go calls returning (value, error) become Except String values;
- the external network world (DNS resolution consulted by endpoint
  resolution, and the result of closing the HTTP reporter transport) is an
  explicit NetEnv argument;
- side effects of span creation (reads of the coarse clock, spans started
  on the underlying engine) are threaded through an explicit World record,
  so that absence of an effect is provable as equality of worlds;
- Go pointer identity with the process-wide NoopTracer singleton is
  modelled by a boolean tag noopRef that is true only on the value built at
  init time and false on every Tracer allocated by New.
-/

namespace Tracing

/-- The external world consulted by the modelled zipkin-go collaborators:
which host names resolve under net.LookupIP, and the error (if any) that
closing the HTTP reporter transport would report. -/
structure NetEnv where
  resolves : String → Bool
  httpCloseErr : Option String

/-- Index of the last colon character of a list of characters, if any.
Helper for the model of Go net.SplitHostPort. -/
def lastColon (cs : List Char) : Option Nat :=
  (List.range cs.length).foldl
    (fun acc i => if cs.get? i = some ':' then some i else acc) none

/-- Model of Go net.SplitHostPort (external standard library, called by
zipkin-go NewEndpoint): splits at the last colon, handles the bracketed
IPv6 form, and rejects extra colons and stray brackets. -/
def splitHostPort (hostPort : String) : Except String (String × String) :=
  let cs := hostPort.toList
  match lastColon cs with
  | none => Except.error ("address " ++ hostPort ++ ": missing port in address")
  | some i =>
    if cs.head? = some '[' then
      match (List.range cs.length).foldr
          (fun j acc => if cs.get? j = some ']' then some j else acc) none with
      | none => Except.error ("address " ++ hostPort ++ ": missing ']' in address")
      | some endBr =>
        if endBr + 1 = cs.length then
          Except.error ("address " ++ hostPort ++ ": missing port in address")
        else if endBr + 1 = i then
          if (cs.drop 1).contains '[' then
            Except.error ("address " ++ hostPort ++ ": unexpected '[' in address")
          else if (cs.drop (endBr + 1)).contains ']' then
            Except.error ("address " ++ hostPort ++ ": unexpected ']' in address")
          else
            Except.ok (String.mk ((cs.drop 1).take (endBr - 1)),
                       String.mk (cs.drop (i + 1)))
        else if cs.get? (endBr + 1) = some ':' then
          Except.error ("address " ++ hostPort ++ ": too many colons in address")
        else
          Except.error ("address " ++ hostPort ++ ": missing port in address")
    else
      if (cs.take i).contains ':' then
        Except.error ("address " ++ hostPort ++ ": too many colons in address")
      else if cs.contains '[' then
        Except.error ("address " ++ hostPort ++ ": unexpected '[' in address")
      else if cs.contains ']' then
        Except.error ("address " ++ hostPort ++ ": unexpected ']' in address")
      else
        Except.ok (String.mk (cs.take i), String.mk (cs.drop (i + 1)))

/-- Model of Go strconv.ParseUint(s, 10, 16): a non-empty all-digit string
whose value fits in 16 bits. -/
def parseUint16 (s : String) : Option Nat :=
  let cs := s.toList
  if cs = [] then none
  else if cs.all (fun c => c.isDigit) then
    let n := cs.foldl (fun acc c => acc * 10 + (c.toNat - 48)) 0
    if n < 65536 then some n else none
  else none

/-- Network identity attached to spans, as built by zipkin-go NewEndpoint
(service name plus the parsed port; resolved addresses abstracted away). -/
structure Endpoint where
  serviceName : String
  port : Nat
deriving DecidableEq

/-- Model of the external zipkin-go NewEndpoint: empty (or ":0") hostport
with an empty service name yields no endpoint and no error; empty hostport
with a service name yields a bare endpoint; otherwise the hostport (with
":0" appended when it has no colon) must split as host:port, the port must
parse as a 16-bit unsigned integer, and the host must resolve in the given
network environment. -/
def newEndpoint (env : NetEnv) (serviceName : String) (hostPort : String) :
    Except String (Option Endpoint) :=
  if hostPort = "" ∨ hostPort = ":0" then
    if serviceName = "" then Except.ok none
    else Except.ok (some { serviceName := serviceName, port := 0 })
  else
    let hp := if (hostPort.toList).contains ':' then hostPort else hostPort ++ ":0"
    match splitHostPort hp with
    | Except.error e => Except.error e
    | Except.ok (host, port) =>
      match parseUint16 port with
      | none => Except.error ("address " ++ hp ++ ": invalid port")
      | some p =>
        if env.resolves host then
          Except.ok (some { serviceName := serviceName, port := p })
        else
          Except.error ("lookup " ++ host ++ ": no such host")

/-- ZipkinSpec describes Zipkin, mirroring the Go struct field for field
(the float64 sample rate is modelled as a rational). -/
structure ZipkinSpec where
  Hostport : String
  ServerURL : String
  DisableReport : Bool
  SampleRate : ℚ
  SameSpan : Bool
  ID128Bit : Bool
deriving DecidableEq

/-- Spec describes Tracer, mirroring the Go struct (the Zipkin field is
required by the schema, so it is embedded directly rather than as an
optional pointer; tags keep their order as an association list). -/
structure Spec where
  ServiceName : String
  Tags : List (String × String)
  Zipkin : ZipkinSpec
deriving DecidableEq

/-- ZipkinSpec.Validate from the source: when Hostport is non-empty it runs
endpoint resolution with an empty service name and surfaces its error;
otherwise it accepts. A pure function of the spec and the network
environment, with no side effects. Returns some error message or none. -/
def ZipkinSpec.Validate (spec : ZipkinSpec) (env : NetEnv) : Option String :=
  if spec.Hostport ≠ "" then
    match newEndpoint env "" spec.Hostport with
    | Except.error err => some err
    | Except.ok _ => none
  else
    none

/-- The Reporter capability consumed by the Tracer: either the discarding
reporter from zipkin-go or the HTTP batch reporter targeting a server URL.
The httpReporter carries the close outcome the external transport will
report, taken from the network environment at construction. -/
inductive Reporter where
  | noopReporter : Reporter
  | httpReporter (serverURL : String) (closeErr : Option String) : Reporter
deriving DecidableEq

/-- Closing a Reporter: the discarding reporter always closes cleanly; the
HTTP reporter reports the transport outcome fixed by the environment. -/
def Reporter.close : Reporter → Option String
  | Reporter.noopReporter => none
  | Reporter.httpReporter _ e => e

/-- A sampler value as produced by zipkin-go NewBoundarySampler: the rate
and the time-derived salt it was seeded with. -/
structure Sampler where
  rate : ℚ
  salt : Int
deriving DecidableEq

/-- Modelled from the spec: zipkin-go NewBoundarySampler is external to
this repository. Per the spec, building the Sampler from the sample rate
seeded with the current time fails exactly when the rate is invalid, the
valid rates being the floats in [0, 1]. -/
def newBoundarySampler (rate : ℚ) (salt : Int) : Except String Sampler :=
  if 0 ≤ rate ∧ rate ≤ 1 then Except.ok { rate := rate, salt := salt }
  else Except.error "tracing: invalid sample rate"

/-- The underlying zipkin-go tracing engine configuration: reporter (none
for the engine inside the noop tracer, which is built with a nil
reporter), local endpoint, shared-span mode, 128-bit trace IDs, sampler
and static tags. -/
structure Engine where
  reporter : Option Reporter
  localEndpoint : Option Endpoint
  sharedSpans : Bool
  traceID128Bit : Bool
  sampler : Option Sampler
  tags : List (String × String)
deriving DecidableEq

/-- Model of the external zipkin-go NewTracer applied to the option set
used in this repository. The options are plain field setters and the
provided sampler is never nil, so with these options the constructor
cannot fail; the Except shape is kept because the source checks the
returned error. -/
def zipkinNewTracer (rep : Option Reporter) (endpoint : Option Endpoint)
    (sharedSpans : Bool) (id128 : Bool) (sampler : Option Sampler)
    (tags : List (String × String)) : Except String Engine :=
  Except.ok { reporter := rep, localEndpoint := endpoint,
              sharedSpans := sharedSpans, traceID128Bit := id128,
              sampler := sampler, tags := tags }

/-- Tracer is the tracer, mirroring the Go struct. The extra field noopRef
models Go pointer identity with the process-wide NoopTracer singleton: it
is true only on the singleton built at init time; New always allocates
fresh values with noopRef false, so equality with the singleton is exactly
noopRef in this model. -/
structure Tracer where
  tracer : Engine
  tags : List (String × String)
  closer : Option Reporter
  noopRef : Bool
deriving DecidableEq

/-- NoopTracer is the tracer doing nothing, built at init time from a nil
reporter and a nil closer. -/
def NoopTracer : Tracer :=
  { tracer := { reporter := none, localEndpoint := none, sharedSpans := true,
                traceID128Bit := false, sampler := some { rate := 1, salt := 0 },
                tags := [] },
    tags := [], closer := none, noopRef := true }

/-- IsNoopTracer checks whether tracer is noop tracer, by pointer identity
with the singleton (modelled by the noopRef tag). -/
def Tracer.IsNoopTracer (t : Tracer) : Bool := t.noopRef

/-- Close closes Tracing: delegate to the closer when present, otherwise
report no error. -/
def Tracer.Close (t : Tracer) : Option String :=
  match t.closer with
  | some c => Reporter.close c
  | none => none

/-- New creates a Tracing, mirroring the source step for step: nil spec
gives the NoopTracer; then endpoint resolution, boundary-sampler
construction (seeded with the current unix time, passed in as nowUnix),
reporter selection by DisableReport, engine construction, and finally a
fresh Tracer owning the selected reporter as its closer (the tags field of
the Go struct is left at its zero value by the source). -/
def New (env : NetEnv) (nowUnix : Int) (spec : Option Spec) :
    Except String Tracer :=
  match spec with
  | none => Except.ok NoopTracer
  | some spec =>
    match newEndpoint env spec.ServiceName spec.Zipkin.Hostport with
    | Except.error err => Except.error err
    | Except.ok endpoint =>
      match newBoundarySampler spec.Zipkin.SampleRate nowUnix with
      | Except.error err => Except.error err
      | Except.ok sampler =>
        let reporter : Reporter :=
          if spec.Zipkin.DisableReport then Reporter.noopReporter
          else Reporter.httpReporter spec.Zipkin.ServerURL env.httpCloseErr
        match zipkinNewTracer (some reporter) endpoint spec.Zipkin.SameSpan
            spec.Zipkin.ID128Bit (some sampler) spec.Tags with
        | Except.error err => Except.error err
        | Except.ok tracer =>
          Except.ok { tracer := tracer, tags := [], closer := some reporter,
                      noopRef := false }

/-- The observable effect state threaded through span creation: the
current coarse time, and counters of clock reads and of spans started on
the underlying engine (so that absence of those effects is provable). -/
structure World where
  now : Int
  clockReads : Nat
  spansStarted : Nat
deriving DecidableEq

/-- Modelled from the spec: pkg/util/fasttime is not under src/. Per the
spec it is the cheap coarse cached clock; Now returns the current coarse
time, and the model records the read in the effect state. -/
def fasttimeNow (w : World) : Int × World :=
  (w.now, { w with clockReads := w.clockReads + 1 })

/-- The data of one span started on the underlying engine: its name and
the start time it was recorded with. -/
structure SpanData where
  name : String
  startTime : Int
deriving DecidableEq

/-- Model of the external engine operation StartSpan with an explicit
StartTime option: it records exactly the supplied name and start time and
counts one span started on the engine. -/
def Engine.startSpanWithTime (_e : Engine) (name : String) (startAt : Int)
    (w : World) : SpanData × World :=
  ({ name := name, startTime := startAt },
   { w with spansStarted := w.spansStarted + 1 })

/-- Modelled from the spec: the span wrapper type lives in span.go, which
is not under src/. Per the spec a span holds a non-owning back-reference
to its owning Tracer together with the underlying engine span. -/
structure span where
  tracer : Tracer
  Span : SpanData
deriving DecidableEq

/-- NoopSpan is the single pre-started span assigned at init time from the
noop tracer (its engine span was started with the empty name at process
start, modelled as time 0). -/
def NoopSpan : span :=
  { tracer := NoopTracer, Span := { name := "", startTime := 0 } }

/-- newSpanWithStart from the source: start a span on the underlying
engine with the given name and start time and wrap it with a
back-reference to the owning tracer. -/
def Tracer.newSpanWithStart (t : Tracer) (name : String) (startAt : Int)
    (w : World) : span × World :=
  let (s, w1) := t.tracer.startSpanWithTime name startAt w
  ({ tracer := t, Span := s }, w1)

/-- NewSpan creates a span: the shared NoopSpan for the noop tracer,
otherwise a fresh span started at the current coarse time. -/
def Tracer.NewSpan (t : Tracer) (name : String) (w : World) : span × World :=
  if t.IsNoopTracer then (NoopSpan, w)
  else
    let (nowv, w1) := fasttimeNow w
    t.newSpanWithStart name nowv w1

/-- NewSpanWithStart creates a span with the specified start time: the
shared NoopSpan for the noop tracer, otherwise a fresh span started at the
caller-supplied time. -/
def Tracer.NewSpanWithStart (t : Tracer) (name : String) (startAt : Int)
    (w : World) : span × World :=
  if t.IsNoopTracer then (NoopSpan, w)
  else t.newSpanWithStart name startAt w

/-! Concrete fixtures used by counterexamples and witnesses. -/

/-- An environment in which every host name resolves and closing the HTTP
reporter succeeds. -/
def allHostsEnv : NetEnv := { resolves := fun _ => true, httpCloseErr := none }

/-- An environment in which no host name resolves. -/
def noDNSEnv : NetEnv := { resolves := fun _ => false, httpCloseErr := none }

/-- A well-formed Spec: empty hostport, valid collector URL, reporting
enabled, sample rate 1. -/
def okSpec : Spec :=
  { ServiceName := "svc", Tags := [],
    Zipkin := { Hostport := "", ServerURL := "http://collector:9411",
                DisableReport := false, SampleRate := 1,
                SameSpan := false, ID128Bit := false } }

/-- The Tracer New builds from okSpec under allHostsEnv at time 0. -/
def okTracer : Tracer :=
  { tracer := { reporter := some (Reporter.httpReporter "http://collector:9411" none),
                localEndpoint := some { serviceName := "svc", port := 0 },
                sharedSpans := false, traceID128Bit := false,
                sampler := some { rate := 1, salt := 0 }, tags := [] },
    tags := [], closer := some (Reporter.httpReporter "http://collector:9411" none),
    noopRef := false }

/-- okSpec with a hostport that does not parse as host:port (two colons,
no brackets), while reporting stays enabled and the server URL valid. -/
def badHostportSpec : Spec :=
  { okSpec with Zipkin := { okSpec.Zipkin with Hostport := "a:b:c" } }

/-- okSpec with a sample rate outside [0, 1]. -/
def badRateSpec : Spec :=
  { okSpec with Zipkin := { okSpec.Zipkin with SampleRate := 2 } }

/-- okSpec with reporting disabled. -/
def disabledSpec : Spec :=
  { okSpec with Zipkin := { okSpec.Zipkin with DisableReport := true } }

/-- The Tracer New builds from disabledSpec under allHostsEnv at time 0. -/
def disabledTracer : Tracer :=
  { tracer := { reporter := some Reporter.noopReporter,
                localEndpoint := some { serviceName := "svc", port := 0 },
                sharedSpans := false, traceID128Bit := false,
                sampler := some { rate := 1, salt := 0 }, tags := [] },
    tags := [], closer := some Reporter.noopReporter, noopRef := false }

/-- A non-noop Tracer whose HTTP reporter closer reports an error. -/
def closeTracer : Tracer :=
  { okTracer with
    closer := some (Reporter.httpReporter "http://collector:9411" (some "close failed")) }

/-- A ZipkinSpec with arbitrary non-trivial values in every field other
than Hostport. -/
def plainZipkin : ZipkinSpec :=
  { Hostport := "x", ServerURL := "u", DisableReport := true,
    SampleRate := 2, SameSpan := true, ID128Bit := true }

/-- A starting effect state: coarse time 100, no clock reads, no spans
started yet. -/
def w0 : World := { now := 100, clockReads := 0, spansStarted := 0 }

/-! Claims. -/

/-- C1: New applied to a nil spec returns the shared NoopTracer singleton
together with a nil error, and IsNoopTracer holds on the returned
tracer (which is the singleton itself). -/
theorem new_nil_returns_noop_singleton (env : NetEnv) (nowUnix : Int) :
    New env nowUnix none = Except.ok NoopTracer ∧
    Tracer.IsNoopTracer NoopTracer = true :=
  ⟨rfl, rfl⟩

/-- C2 counterexample: a Spec with DisableReport false and the valid
server URL http://collector:9411 on which New nevertheless fails, because
its hostport "a:b:c" does not resolve to an endpoint — even in an
environment where every host name resolves. So a valid server URL and
enabled reporting alone do not guarantee success of New. -/
theorem new_fails_despite_valid_serverURL :
    badHostportSpec.Zipkin.DisableReport = false ∧
    badHostportSpec.Zipkin.ServerURL = "http://collector:9411" ∧
    (New allHostsEnv 0 (some badHostportSpec)).isOk = false :=
  ⟨rfl, rfl, rfl⟩

/-- C2 amended: for every Spec with DisableReport false and a valid
serverURL, provided additionally that endpoint resolution from
serviceName and hostport succeeds and the sample rate is valid (in
[0, 1]), New returns a nil error together with a Tracer that is not
identical to the NoopTracer singleton. -/
theorem new_succeeds_given_endpoint_and_rate (env : NetEnv) (nowUnix : Int)
    (spec : Spec)
    (hend : ∃ ep, newEndpoint env spec.ServiceName spec.Zipkin.Hostport = Except.ok ep)
    (h0 : 0 ≤ spec.Zipkin.SampleRate) (h1 : spec.Zipkin.SampleRate ≤ 1) :
    ∃ t, New env nowUnix (some spec) = Except.ok t ∧ t ≠ NoopTracer := by
  obtain ⟨ep, hep⟩ := hend
  have hs : newBoundarySampler spec.Zipkin.SampleRate nowUnix
      = Except.ok { rate := spec.Zipkin.SampleRate, salt := nowUnix } := by
    simp [newBoundarySampler, h0, h1]
  simp only [New, hep, hs, zipkinNewTracer]
  exact ⟨_, rfl, fun hcontra => Bool.noConfusion (congrArg Tracer.noopRef hcontra)⟩

/-- C2 witness: the amended statement applied to okSpec. -/
theorem new_succeeds_given_endpoint_and_rate_witness :
    ∃ t, New allHostsEnv 0 (some okSpec) = Except.ok t ∧ t ≠ NoopTracer :=
  new_succeeds_given_endpoint_and_rate allHostsEnv 0 okSpec
    ⟨some { serviceName := "svc", port := 0 }, rfl⟩ (by decide) (by decide)

/-- C3: Validate returns an error exactly when Hostport is non-empty and
endpoint resolution of it fails; with any other fields fixed, the empty
hostport is accepted and the hostport "not-an-endpoint" is rejected
whenever that name does not resolve (it parses as host "not-an-endpoint"
with default port 0, and then the lookup fails). Validate itself is a
pure function of the spec and the environment, so it has no side
effects. -/
theorem validate_errors_iff_bad_hostport (env : NetEnv) (s : ZipkinSpec)
    (hres : env.resolves "not-an-endpoint" = false) :
    (s.Validate env ≠ none ↔
        s.Hostport ≠ "" ∧ (newEndpoint env "" s.Hostport).isOk = false) ∧
    ({ s with Hostport := "" } : ZipkinSpec).Validate env = none ∧
    ({ s with Hostport := "not-an-endpoint" } : ZipkinSpec).Validate env ≠ none := by
  refine ⟨?_, by simp [ZipkinSpec.Validate], ?_⟩
  · unfold ZipkinSpec.Validate
    by_cases hp : s.Hostport = ""
    · simp [hp]
    · simp only [hp, if_pos, ne_eq, not_false_eq_true, true_and, if_true]
      cases h : newEndpoint env "" s.Hostport with
      | error e => simp [h, Except.isOk, Except.toBool]
      | ok v => simp [h, Except.isOk, Except.toBool]
  · have h : newEndpoint env "" "not-an-endpoint"
        = if env.resolves "not-an-endpoint" then
            Except.ok (some { serviceName := "", port := 0 })
          else Except.error "lookup not-an-endpoint: no such host" := rfl
    simp [ZipkinSpec.Validate, h, hres]

/-- C3 witness: the contract applied to plainZipkin in the environment
where no host resolves. -/
theorem validate_errors_iff_bad_hostport_witness :
    (plainZipkin.Validate noDNSEnv ≠ none ↔
        plainZipkin.Hostport ≠ "" ∧
        (newEndpoint noDNSEnv "" plainZipkin.Hostport).isOk = false) ∧
    ({ plainZipkin with Hostport := "" } : ZipkinSpec).Validate noDNSEnv = none ∧
    ({ plainZipkin with Hostport := "not-an-endpoint" } : ZipkinSpec).Validate noDNSEnv ≠ none :=
  validate_errors_iff_bad_hostport noDNSEnv plainZipkin rfl

/-- C4: New propagates failures synchronously: when endpoint resolution
fails its error is returned as the result of New (so no Tracer is
produced), and when endpoint resolution succeeds but building the
boundary sampler fails, the sampler error is returned as the result of
New. -/
theorem new_propagates_endpoint_and_sampler_errors (env : NetEnv)
    (nowUnix : Int) (spec : Spec) :
    (∀ e, newEndpoint env spec.ServiceName spec.Zipkin.Hostport = Except.error e →
        New env nowUnix (some spec) = Except.error e) ∧
    (∀ ep e, newEndpoint env spec.ServiceName spec.Zipkin.Hostport = Except.ok ep →
        newBoundarySampler spec.Zipkin.SampleRate nowUnix = Except.error e →
        New env nowUnix (some spec) = Except.error e) := by
  constructor
  · intro e he
    simp [New, he]
  · intro ep e hep hs
    simp [New, hep, hs]

/-- C4 witness: the malformed hostport "a:b:c" and the out-of-range
sample rate 2 each make New fail with the propagated error. -/
theorem new_propagates_endpoint_and_sampler_errors_witness :
    New allHostsEnv 0 (some badHostportSpec)
      = Except.error "address a:b:c: too many colons in address" ∧
    New allHostsEnv 0 (some badRateSpec)
      = Except.error "tracing: invalid sample rate" :=
  ⟨(new_propagates_endpoint_and_sampler_errors allHostsEnv 0 badHostportSpec).1 _ rfl,
   (new_propagates_endpoint_and_sampler_errors allHostsEnv 0 badRateSpec).2
     (some { serviceName := "svc", port := 0 }) _ rfl rfl⟩

/-- C5: on the noop tracer, NewSpan and NewSpanWithStart both return the
shared NoopSpan and leave the effect state untouched: no clock read and
no span started on the underlying engine. -/
theorem noop_tracer_spans_are_noop (t : Tracer) (name : String)
    (startAt : Int) (w : World) (h : t.IsNoopTracer = true) :
    t.NewSpan name w = (NoopSpan, w) ∧
    t.NewSpanWithStart name startAt w = (NoopSpan, w) := by
  simp [Tracer.NewSpan, Tracer.NewSpanWithStart, h]

/-- C5 witness: the property at the NoopTracer itself. -/
theorem noop_tracer_spans_are_noop_witness :
    NoopTracer.NewSpan "req" w0 = (NoopSpan, w0) ∧
    NoopTracer.NewSpanWithStart "req" 42 w0 = (NoopSpan, w0) :=
  noop_tracer_spans_are_noop NoopTracer "req" 42 w0 rfl

/-- C6: on any non-noop tracer, the span produced by NewSpanWithStart
records exactly the caller-supplied start time (for every time, past or
future, and every effect state — so the value is neither validated nor
replaced by the current time) along with the supplied name. -/
theorem newspanwithstart_records_supplied_time (t : Tracer) (name : String)
    (t0 : Int) (w : World) (h : t.IsNoopTracer = false) :
    ((t.NewSpanWithStart name t0 w).1).Span.startTime = t0 ∧
    ((t.NewSpanWithStart name t0 w).1).Span.name = name := by
  simp [Tracer.NewSpanWithStart, h, Tracer.newSpanWithStart, Engine.startSpanWithTime]

/-- C6 witness: a span backdated to time -3500 while the coarse clock
reads 100 records -3500. -/
theorem newspanwithstart_records_supplied_time_witness :
    ((okTracer.NewSpanWithStart "req" (-3500) w0).1).Span.startTime = -3500 ∧
    ((okTracer.NewSpanWithStart "req" (-3500) w0).1).Span.name = "req" :=
  newspanwithstart_records_supplied_time okTracer "req" (-3500) w0 rfl

/-- C7: Close delegates to the closer exactly: with a closer present it
returns that closer's close outcome, with no closer it returns nil; and
the NoopTracer, built with a nil closer, closes with nil. -/
theorem close_delegates_to_closer (t : Tracer) :
    (∀ c, t.closer = some c → t.Close = Reporter.close c) ∧
    (t.closer = none → t.Close = none) ∧
    NoopTracer.closer = none ∧
    Tracer.Close NoopTracer = none := by
  refine ⟨?_, ?_, rfl, rfl⟩
  · intro c hc
    simp [Tracer.Close, hc]
  · intro hc
    simp [Tracer.Close, hc]

/-- C7 witness: a tracer owning an HTTP reporter whose transport close
fails propagates exactly that error, and the NoopTracer closes clean. -/
theorem close_delegates_to_closer_witness :
    closeTracer.Close = some "close failed" ∧ Tracer.Close NoopTracer = none :=
  ⟨((close_delegates_to_closer closeTracer).1 _ rfl).trans rfl,
   (close_delegates_to_closer NoopTracer).2.2.2⟩

/-- C8: whenever New succeeds, the closer of the returned Tracer is
exactly the selected Reporter: the discarding reporter when DisableReport
is true, and otherwise the HTTP reporter targeting the configured server
URL. -/
theorem new_selects_reporter_as_closer (env : NetEnv) (nowUnix : Int)
    (spec : Spec) (t : Tracer)
    (h : New env nowUnix (some spec) = Except.ok t) :
    t.closer = some (if spec.Zipkin.DisableReport then Reporter.noopReporter
                     else Reporter.httpReporter spec.Zipkin.ServerURL env.httpCloseErr) := by
  cases hep : newEndpoint env spec.ServiceName spec.Zipkin.Hostport with
  | error e => simp [New, hep] at h
  | ok ep =>
    cases hs : newBoundarySampler spec.Zipkin.SampleRate nowUnix with
    | error e => simp [New, hep, hs] at h
    | ok sa =>
      simp only [New, hep, hs, zipkinNewTracer, Except.ok.injEq] at h
      subst h
      rfl

/-- C8 witness: with reporting enabled the closer is the HTTP reporter
for the configured URL; with reporting disabled it is the discarding
reporter. -/
theorem new_selects_reporter_as_closer_witness :
    okTracer.closer = some (Reporter.httpReporter "http://collector:9411" none) ∧
    disabledTracer.closer = some Reporter.noopReporter :=
  ⟨new_selects_reporter_as_closer allHostsEnv 0 okSpec okTracer rfl,
   new_selects_reporter_as_closer allHostsEnv 0 disabledSpec disabledTracer rfl⟩

/-- C9: span creation is total: for every tracer, name and effect state,
NewSpan returns a span and a successor state — its result type has no
error component, and the definition covers all inputs. -/
theorem newspan_is_total (t : Tracer) (name : String) (w : World) :
    ∃ s w2, Tracer.NewSpan t name w = (s, w2) :=
  ⟨(Tracer.NewSpan t name w).1, (Tracer.NewSpan t name w).2, rfl⟩

/-- C10: the outcome of Validate depends only on the Hostport field: two
ZipkinSpecs with equal Hostport validate identically whatever their
ServerURL, SampleRate, DisableReport, SameSpan and ID128Bit fields. -/
theorem validate_depends_only_on_hostport (env : NetEnv) (s1 s2 : ZipkinSpec)
    (h : s1.Hostport = s2.Hostport) :
    s1.Validate env = s2.Validate env := by
  simp only [ZipkinSpec.Validate, h]

/-- C10 witness: an empty-hostport spec with an empty server URL and an
out-of-range sample rate validates exactly like a fully well-formed
empty-hostport spec. -/
theorem validate_depends_only_on_hostport_witness :
    ZipkinSpec.Validate
        { Hostport := "", ServerURL := "", DisableReport := false,
          SampleRate := 5, SameSpan := false, ID128Bit := false } noDNSEnv
      = ZipkinSpec.Validate
        { Hostport := "", ServerURL := "http://collector:9411",
          DisableReport := true, SampleRate := 1, SameSpan := true,
          ID128Bit := true } noDNSEnv :=
  validate_depends_only_on_hostport noDNSEnv _ _ rfl

end Tracing
